import Mathlib

deriving instance DecidableEq for Except

/-
  Verification development for the tm_mapselect server controller
  (src/tm_mapselect/main.py), as a shallow embedding in Lean 4.

  Python dynamic values returned by the XML-RPC remote are modelled by the
  inductive type `Value`; Python exceptions are modelled by the error type
  `Err` together with `Except Err`; Python dicts are modelled as association
  lists with in-place replacement semantics (`dictLookup` / `dictInsert`).
-/

namespace TmMapselect

/-- Dynamic values as returned by the XML-RPC remote and by JSON decoding,
modelling Python `Any`. -/
inductive Value where
  | int (i : Int)
  | str (s : String)
  | bool (b : Bool)
  | list (l : List Value)
  | dict (d : List (String × Value))

/-- Python exceptions raised by the embedded code: `RuntimeError` (with its
message), `TypeError` (raised by `check_cast`), `KeyError` (dict subscript on a
missing key), `IndexError` (sequence subscript out of range), `xmlrpc.client.Fault`
(raised by the remote transport), and a marker for a loop that did not
terminate within the modelling fuel. -/
inductive Err where
  | runtimeError (msg : String)
  | typeError
  | keyError (k : String)
  | indexError
  | fault (msg : String)
  | nonTermination
deriving DecidableEq, Repr

/-- Association-list lookup with Python `dict` semantics (at most one binding
per key is maintained by `dictInsert`). -/
def dictLookup {α : Type} : List (String × α) → String → Option α
  | [], _ => none
  | (k', v') :: rest, k => if k' = k then some v' else dictLookup rest k

/-- Python `d[k] = v`: replace the binding in place when the key is present,
append it otherwise. -/
def dictInsert {α : Type} : List (String × α) → String → α → List (String × α)
  | [], k, v => [(k, v)]
  | (k', v') :: rest, k, v =>
    if k' = k then (k, v) :: rest else (k', v') :: dictInsert rest k v

/-- Python `current |= patch` on dicts: every binding of `patch` is written
into `current`, patch keys winning on collision. -/
def dictMerge {α : Type} (d patch : List (String × α)) : List (String × α) :=
  patch.foldl (fun acc p => dictInsert acc p.1 p.2) d

/-- Models `check_cast(obj, int)` (main.py line 106). Python `bool` is a
subclass of `int`, so a boolean passes an `isinstance(obj, int)` check. -/
def check_cast_int : Value → Except Err Int
  | .int i => .ok i
  | .bool b => .ok (if b then 1 else 0)
  | _ => .error .typeError

/-- Models `check_cast(obj, str)`. -/
def check_cast_str : Value → Except Err String
  | .str s => .ok s
  | _ => .error .typeError

/-- Models `check_cast(obj, dict)`. -/
def check_cast_dict : Value → Except Err (List (String × Value))
  | .dict d => .ok d
  | _ => .error .typeError

/-- Python subscript `v[k]` on a dynamic value with a string key: succeeds
only on a dict containing the key (`KeyError` when the key is missing,
`TypeError` on a non-dict). -/
def Value.getItem : Value → String → Except Err Value
  | .dict d, k =>
    match dictLookup d k with
    | some v => .ok v
    | none => .error (.keyError k)
  | _, _ => .error .typeError

/-- The four medal names of `MapUserData.medal` (main.py lines 20-26). -/
inductive Medal where
  | Author
  | Gold
  | Silver
  | Bronze
deriving DecidableEq, Repr

/-- A medal-thresholds dict `dict[str, int]` over the four medal keys, as
delivered by the catalog service; an absent key is `none`. -/
structure Medals where
  author : Option Int
  gold : Option Int
  silver : Option Int
  bronze : Option Int
deriving DecidableEq, Repr

/-- Python subscript `medals[k]` on a medal-thresholds dict: `KeyError` when
the key is absent. -/
def Medals.item (m : Medals) (k : String) : Except Err Int :=
  let v : Option Int :=
    if k = "Author" then m.author
    else if k = "Gold" then m.gold
    else if k = "Silver" then m.silver
    else if k = "Bronze" then m.bronze
    else none
  match v with
  | some i => .ok i
  | none => .error (.keyError k)

/-- `MapUserData` (main.py lines 17-26): a raw record time and the computed
medal tier. -/
structure MapUserData where
  record : Int
  medal : Option Medal
deriving DecidableEq, Repr

/-- `MapUserData.from_record` (main.py lines 28-39): start with `medal = None`
and run the four `if record < medals[k]` checks in order Bronze, Silver, Gold,
Author, each later match overriding. Each check subscripts the dict, so a
missing key raises `KeyError` at the corresponding check. -/
def MapUserData.from_record (record : Int) (medals : Medals) :
    Except Err MapUserData := do
  let d0 : Option Medal := none
  let b ← medals.item "Bronze"
  let d1 := if record < b then some Medal.Bronze else d0
  let s ← medals.item "Silver"
  let d2 := if record < s then some Medal.Silver else d1
  let g ← medals.item "Gold"
  let d3 := if record < g then some Medal.Gold else d2
  let a ← medals.item "Author"
  let d4 := if record < a then some Medal.Author else d3
  return ⟨record, d4⟩

/-- Modelled from the spec (section 4.5), the refinement target for the medal
rule: start with tier = None; if `raw_time_ms < Bronze` set Bronze; if
`< Silver` set Silver; if `< Gold` set Gold; if `< Author` set Author; checks
in exactly this order with strict less-than, later matches overriding. -/
def spec_medal_tier (raw_time_ms bronze silver gold author : Int) : Option Medal :=
  let t0 : Option Medal := none
  let t1 := if raw_time_ms < bronze then some Medal.Bronze else t0
  let t2 := if raw_time_ms < silver then some Medal.Silver else t1
  let t3 := if raw_time_ms < gold then some Medal.Gold else t2
  if raw_time_ms < author then some Medal.Author else t3

/-- `DBEntry` (main.py lines 112-121): one durable row of the uid-to-id
cache table. The table's primary key is the `id` column (lines 129-133). -/
structure DBEntry where
  uid : String
  id : Int
  online_id : String
  author_medal : Int
  gold_medal : Int
  silver_medal : Int
  bronze_medal : Int
deriving DecidableEq, Repr

/-- The resolved tuple `(id, online_map_id, medals)` returned by
`get_tmx_ids` and stored in `_uid_to_id_cache`. -/
abbrev TmxTuple := Int × String × Medals

/-- `DB.db_add_entry` (lines 164-167) via `DBEntry.insert_or_replace`
(lines 137-145): an `INSERT OR REPLACE` keyed on the primary key `id` —
any row with the same `id` is replaced, the new row arriving last. -/
def db_add_entry (db : List DBEntry) (e : DBEntry) : List DBEntry :=
  db.filter (fun x => x.id != e.id) ++ [e]

/-- The tuple a durable row hydrates to (lines 173-182): all four medal keys
are present in the rebuilt medals dict. -/
def entryTuple (e : DBEntry) : TmxTuple :=
  (e.id, e.online_id,
   ⟨some e.author_medal, some e.gold_medal, some e.silver_medal, some e.bronze_medal⟩)

/-- `DB.get_all_entries` (lines 169-184): select every row and build the
uid-keyed dict; a later row with the same uid overrides an earlier one. -/
def get_all_entries (db : List DBEntry) : List (String × TmxTuple) :=
  db.foldl (fun acc e => dictInsert acc e.uid (entryTuple e)) []

/-- One element of the catalog service's `Results` array, with the fields the
lookup requests (line 392): `MapId`, `OnlineMapId` and the medal thresholds
(absent threshold keys are `none`). -/
structure TmxResult where
  MapId : Int
  OnlineMapId : String
  Medals : Medals
deriving DecidableEq, Repr

/-- A decoded catalog-service HTTP response: status code and `Results`. -/
structure TmxResponse where
  status_code : Nat
  Results : List TmxResult
deriving DecidableEq, Repr

/-- The mutable resolution state of `ServerController`: the in-memory
`_uid_to_id_cache` dict and the rows of the durable sqlite store `_db`. -/
structure ControllerCache where
  uid_to_id_cache : List (String × TmxTuple)
  db : List DBEntry
deriving DecidableEq, Repr

/-- One visible write performed by `get_tmx_ids`, in execution order: an
insert into the in-memory mapping or a committed durable-store write. -/
inductive CacheEvent where
  | cacheInsert (uid : String)
  | dbWrite (uid : String)
deriving DecidableEq, Repr

/-- The spec's `MetadataUnavailable(uid)` typed failure, which in the source
is the `RuntimeError` of main.py line 397. -/
def MetadataUnavailable (uid : String) : Err :=
  .runtimeError ("Failed to retrieve TMX info for map UID " ++ uid ++ ".")

/-- `ServerController.get_tmx_ids` (lines 386-416). `http` is the external
catalog service, mapping the uid the lookup is filtered by to the decoded
response. The result carries the returned tuple or raised exception, the
controller state after the call, the number of HTTP requests issued, and the
ordered trace of cache and durable-store writes. -/
def get_tmx_ids (st : ControllerCache) (map_uid : String)
    (http : String → TmxResponse) :
    Except Err TmxTuple × ControllerCache × Nat × List CacheEvent :=
  match dictLookup st.uid_to_id_cache map_uid with
  | some t => (.ok t, st, 0, [])
  | none =>
    let response := http map_uid
    if response.status_code ≠ 200 then
      (.error (.runtimeError ("Failed to retrieve TMX info for map UID " ++ map_uid ++ ".")),
       st, 1, [])
    else
      match response.Results with
      | [] => (.error .indexError, st, 1, [])
      | r :: _ =>
        let id := r.MapId
        let online_map_id := r.OnlineMapId
        let medals := r.Medals
        let cache2 := dictInsert st.uid_to_id_cache map_uid (id, online_map_id, medals)
        let entry : DBEntry :=
          ⟨map_uid, id, online_map_id, medals.author.getD 0, medals.gold.getD 0,
           medals.silver.getD 0, medals.bronze.getD 0⟩
        (.ok (id, online_map_id, medals), ⟨cache2, db_add_entry st.db entry⟩, 1,
         [.cacheInsert map_uid, .dbWrite map_uid])

/-- The durable row `get_tmx_ids` writes for a successful miss: absent medal
fields default to 0 through `.get(key, 0)` (lines 404-414). -/
def tmxEntry (map_uid : String) (r : TmxResult) : DBEntry :=
  ⟨map_uid, r.MapId, r.OnlineMapId, r.Medals.author.getD 0, r.Medals.gold.getD 0,
   r.Medals.silver.getD 0, r.Medals.bronze.getD 0⟩

/-- A medals dict with every absent field replaced by 0 and all four keys
present: the shape a tuple has after a round trip through the durable store. -/
def medalsWithDefaults (m : Medals) : Medals :=
  ⟨some (m.author.getD 0), some (m.gold.getD 0), some (m.silver.getD 0),
   some (m.bronze.getD 0)⟩

/-- The dedicated-server remote (imported from .gbxremote, an external
capability per the spec), modelled as a response oracle: `connalive` is the
connection flag read by `validate_connection`, `connectResult` the value
returned by `remote.connect()`, and `call` the response of
`remote.call(method, args)`, a `Fault` being raised as `.error (.fault msg)`. -/
structure DedicatedRemote where
  connalive : Bool
  connectResult : Bool
  call : String → List Value → Except Err Value

/-- `validate_connection` (lines 94-103): a wrapped operation first checks
`remote.connalive` and raises a RuntimeError when not connected. -/
def validate_connection {α : Type} (r : DedicatedRemote) (inner : Except Err α) :
    Except Err α :=
  if r.connalive then inner
  else .error (.runtimeError "Not connected to the dedicated server.")

/-- `get_server_name` (lines 312-314). -/
def get_server_name (r : DedicatedRemote) : Except Err String :=
  validate_connection r (r.call "GetServerName" [] >>= check_cast_str)

/-- `get_max_players` (lines 316-321). -/
def get_max_players (r : DedicatedRemote) : Except Err Int :=
  validate_connection r (do
    let result ← r.call "GetMaxPlayers" [] >>= check_cast_dict
    match dictLookup result "CurrentValue" with
    | none => .error (.runtimeError "Failed to get max players.")
    | some v => check_cast_int v)

/-- `get_player_list` (lines 330-336): a non-list or empty response raises a
RuntimeError; otherwise the first element is dropped and each remaining
entry's NickName is extracted. -/
def get_player_list (r : DedicatedRemote) : Except Err (List String) :=
  validate_connection r (do
    let players ← r.call "GetPlayerList" [.int 100, .int 0]
    match players with
    | .list l =>
      if l.length = 0 then .error (.runtimeError "Failed to get player list.")
      else (l.drop 1).mapM (fun p => p.getItem "NickName" >>= check_cast_str)
    | _ => .error (.runtimeError "Failed to get player list."))

/-- `get_current_map_index` (lines 382-384). -/
def get_current_map_index (r : DedicatedRemote) : Except Err Int :=
  validate_connection r (r.call "GetCurrentMapIndex" [] >>= check_cast_int)

/-- `get_mode_script_settings` (lines 361-363). -/
def get_mode_script_settings (r : DedicatedRemote) :
    Except Err (List (String × Value)) :=
  validate_connection r (r.call "GetModeScriptSettings" [] >>= check_cast_dict)

/-- `ModeScriptSettings` (lines 59-75). -/
structure ModeScriptSettings where
  time_limit : Int
deriving DecidableEq, Repr

/-- `ModeScriptSettings.from_dict` (lines 72-75): `settings.get("S_TimeLimit", 0)`
checked to be an int. -/
def ModeScriptSettings.from_dict (settings : List (String × Value)) :
    Except Err ModeScriptSettings := do
  let time_limit ← check_cast_int ((dictLookup settings "S_TimeLimit").getD (.int 0))
  return ⟨time_limit⟩

/-- `ModeScriptSettings.update_from_dict` (lines 68-70). -/
def ModeScriptSettings.update_from_dict (m : ModeScriptSettings)
    (settings : List (String × Value)) : Except Err ModeScriptSettings :=
  match dictLookup settings "S_TimeLimit" with
  | some v => do
    let t ← check_cast_int v
    return ⟨t⟩
  | none => return m

/-- Python `try ... except Fault as e: ...`: only a `Fault` is caught; every
other exception propagates. -/
def catchFault {α : Type} (x : Except Err α) (handler : String → Except Err α) :
    Except Err α :=
  match x with
  | .error (.fault m) => handler m
  | other => other

/-- `set_mode_script_settings` (lines 365-377): read the current remote mode
settings, merge the patch over them (patch keys win), write the merged dict
back in one call; a non-bool result raises a RuntimeError, a Fault anywhere
in the block is rewrapped as a RuntimeError, and a bool result is returned
as-is. -/
def set_mode_script_settings (r : DedicatedRemote)
    (settings_dict : List (String × Value)) : Except Err Bool :=
  validate_connection r (catchFault (do
      let current_mode_settings ← get_mode_script_settings r
      let merged := dictMerge current_mode_settings settings_dict
      let result ← r.call "SetModeScriptSettings" [.dict merged]
      match result with
      | .bool b => pure b
      | _ => .error (.runtimeError "Failed to set mode script settings."))
    (fun m => .error (.runtimeError ("Failed to set mode script setting: " ++ m))))

/-- `Map` (lines 42-56). `ID`, `OnlineID` and `Medals` are written by
`get_map_list` from the resolved tuple; the remaining fields are taken from
the raw wire record unvalidated, since a Python dataclass does not check
field types at construction. -/
structure Map where
  ID : Int
  OnlineID : String
  UId : Value
  Name : Value
  FileName : Value
  Environnement : Value
  Author : Value
  AuthorNickname : Value
  GoldTime : Value
  CopperPrice : Value
  MapType : Value
  MapStyle : Value
  Medals : Medals

/-- The ten field names `Map(**map_data)` takes from the wire record. -/
def mapWireFields : List String :=
  ["UId", "Name", "FileName", "Environnement", "Author", "AuthorNickname",
   "GoldTime", "CopperPrice", "MapType", "MapStyle"]

/-- `Map(**map_data)` (line 439) after `map_data["ID"]`, `["OnlineID"]` and
`["Medals"]` were assigned: keyword construction raises a TypeError unless
the dict's keys are exactly the dataclass fields. -/
def Map.ofDict (d : List (String × Value)) (id : Int) (oid : String)
    (medals : TmMapselect.Medals) : Except Err Map :=
  match dictLookup d "UId", dictLookup d "Name", dictLookup d "FileName",
        dictLookup d "Environnement", dictLookup d "Author",
        dictLookup d "AuthorNickname", dictLookup d "GoldTime",
        dictLookup d "CopperPrice", dictLookup d "MapType",
        dictLookup d "MapStyle" with
  | some uid, some nm, some fn, some env, some au, some an, some gt, some cp,
    some mt, some ms =>
    if d.all (fun p => decide (p.1 ∈ "ID" :: "OnlineID" :: "Medals" :: mapWireFields)) then
      .ok ⟨id, oid, uid, nm, fn, env, au, an, gt, cp, mt, ms, medals⟩
    else .error .typeError
  | _, _, _, _, _, _, _, _, _, _ => .error .typeError

/-- The while loop of `get_map_list` (lines 427-432): while the previous page
had at least `map_chunks` records, request the next page at the advanced
offset; a non-list response breaks out of the loop. `fuel` bounds the number
of iterations of the unbounded source loop; `.nonTermination` marks fuel
exhaustion and is not a behavior of the source. The offsets of the page
requests issued are accumulated alongside the records. -/
def fetch_loop (r : DedicatedRemote) (map_chunks : Int) :
    Nat → Int → List Value → List Value → List Int →
    Except Err (List Value × List Int)
  | 0, _, _, _, _ => .error .nonTermination
  | fuel + 1, offset, maps, new_maps, offs =>
    if map_chunks ≤ (new_maps.length : Int) then
      match r.call "GetMapList" [.int map_chunks, .int offset] with
      | .error e => .error e
      | .ok (.list l) =>
        fetch_loop r map_chunks fuel (offset + map_chunks) (maps ++ l) l
          (offs ++ [offset])
      | .ok _ => .ok (maps, offs ++ [offset])
    else .ok (maps, offs)

/-- The pagination portion of `get_map_list` (lines 420-432), the spec's
`fetch_all_maps`: request the page at offset 0 (a non-list first response
yields the empty list), then run the loop. Returns the concatenated raw
records and the offsets requested. -/
def fetch_all_maps (r : DedicatedRemote) (map_chunks : Int) (fuel : Nat) :
    Except Err (List Value × List Int) :=
  match r.call "GetMapList" [.int map_chunks, .int 0] with
  | .error e => .error e
  | .ok (.list l) => fetch_loop r map_chunks fuel map_chunks l l [0]
  | .ok _ => .ok ([], [0])

/-- The enrichment loop of `get_map_list` (lines 433-437): for each raw
record, subscript its UId (assumed textual) and resolve it through
`get_tmx_ids`, pairing the record with the resolved tuple. -/
def enrich_loop : List Value → ControllerCache → (String → TmxResponse) →
    Except Err (List (List (String × Value) × TmxTuple) × ControllerCache)
  | [], st, _ => .ok ([], st)
  | v :: rest, st, http => do
    let d ← match v with
      | .dict d => pure d
      | _ => .error .typeError
    let uidv ← Value.getItem v "UId"
    let uid ← match uidv with
      | .str s => pure s
      | _ => .error .typeError
    let out := get_tmx_ids st uid http
    let t ← out.1
    let (done, st2) ← enrich_loop rest out.2.1 http
    .ok ((d, t) :: done, st2)

/-- The construction comprehension of `get_map_list` (line 439). -/
def construct_maps : List (List (String × Value) × TmxTuple) → Except Err (List Map)
  | [] => .ok []
  | (d, id, oid, medals) :: rest => do
    let m ← Map.ofDict d id oid medals
    let ms ← construct_maps rest
    .ok (m :: ms)

/-- `ServerController.get_map_list` (lines 418-439): guard, pagination,
enrichment through the uid cache, then Map construction. Returns the maps,
the updated cache state and the offsets of the page requests issued. -/
def get_map_list (r : DedicatedRemote) (map_chunks : Int) (fuel : Nat)
    (st : ControllerCache) (http : String → TmxResponse) :
    Except Err (List Map × ControllerCache × List Int) :=
  validate_connection r (do
    let (raw, offs) ← fetch_all_maps r map_chunks fuel
    let (pairs, st2) ← enrich_loop raw st http
    let maps ← construct_maps pairs
    .ok (maps, st2, offs))

/-- `ServerState` (lines 78-91). -/
structure ServerState where
  server_name : String
  maps : List Map
  players : List String
  current_map_index : Int
  modescript_settings : ModeScriptSettings
  max_players : Int

/-- The observable outcome of `connect` (lines 338-359): the returned flag,
the published state (`none` when no state was published), and whether the
background update thread was started. -/
structure ConnectResult where
  connected : Bool
  state : Option ServerState
  thread_started : Bool

/-- `ServerController.connect` (lines 338-359): when `remote.connect()`
succeeds, pull current map index, mode settings, server name, max players
and player list synchronously — the map list is NOT pulled, `maps` is set to
the empty list — publish the state and start the background thread; any
exception in a step propagates, publishing no state. -/
def connect (r : DedicatedRemote) : Except Err ConnectResult :=
  if r.connectResult then do
    let maps : List Map := []
    let current_map_index ← get_current_map_index r
    let settings ← get_mode_script_settings r
    let mode_script_settings ← ModeScriptSettings.from_dict settings
    let server_name ← get_server_name r
    let max_players ← get_max_players r
    let player_list ← get_player_list r
    .ok ⟨true, some ⟨server_name, maps, player_list, current_map_index,
          mode_script_settings, max_players⟩, true⟩
  else .ok ⟨false, none, false⟩

/-- `update_map_list` (lines 449-451). -/
def update_map_list (r : DedicatedRemote) (state : Option ServerState)
    (st : ControllerCache) (http : String → TmxResponse) (fuel : Nat) :
    Except Err (Option ServerState × ControllerCache) :=
  match state with
  | none => .ok (none, st)
  | some s => do
    let (maps, st2, _offs) ← get_map_list r 5 fuel st http
    .ok (some { s with maps := maps }, st2)

/-- `update_current_map_index` (lines 453-455). -/
def update_current_map_index (r : DedicatedRemote) (state : Option ServerState) :
    Except Err (Option ServerState) :=
  match state with
  | none => .ok none
  | some s => do
    let idx ← get_current_map_index r
    .ok (some { s with current_map_index := idx })

/-- `update_mode_script_settings` (lines 457-460). -/
def update_mode_script_settings (r : DedicatedRemote) (state : Option ServerState) :
    Except Err (Option ServerState) :=
  match state with
  | none => .ok none
  | some s => do
    let settings ← get_mode_script_settings r
    let ms ← s.modescript_settings.update_from_dict settings
    .ok (some { s with modescript_settings := ms })

/-- `update_player_list` (lines 462-464). -/
def update_player_list (r : DedicatedRemote) (state : Option ServerState) :
    Except Err (Option ServerState) :=
  match state with
  | none => .ok none
  | some s => do
    let players ← get_player_list r
    .ok (some { s with players := players })

/-- `update_state` (lines 466-470): one resync pass — map list, current
index, mode settings, player list, in that order, each step's exception
propagating. -/
def update_state (r : DedicatedRemote) (state : Option ServerState)
    (st : ControllerCache) (http : String → TmxResponse) (fuel : Nat) :
    Except Err (Option ServerState × ControllerCache) := do
  let (s1, st1) ← update_map_list r state st http fuel
  let s2 ← update_current_map_index r s1
  let s3 ← update_mode_script_settings r s2
  let s4 ← update_player_list r s3
  .ok (s4, st1)

/-- The body of the while loop of `_periodic_update` (lines 304-310): the
try/except around `update_state` is commented out in the source, so a resync
pass is exactly one `update_state` call and any exception it raises
propagates out of the loop body (terminating the synchronizer thread); the
subsequent event wait and clear do not affect the result. -/
def periodic_update_pass (r : DedicatedRemote) (state : Option ServerState)
    (st : ControllerCache) (http : String → TmxResponse) (fuel : Nat) :
    Except Err (Option ServerState × ControllerCache) :=
  update_state r state st http fuel

end TmMapselect

namespace TmMapselect

theorem except_bind_ok {ε α β : Type} (a : α) (f : α → Except ε β) :
    (Except.ok a : Except ε α) >>= f = f a := rfl

theorem except_bind_error {ε α β : Type} (e : ε) (f : α → Except ε β) :
    (Except.error e : Except ε α) >>= f = Except.error e := rfl

theorem dictLookup_insert_self {α : Type} (d : List (String × α)) (k : String) (v : α) :
    dictLookup (dictInsert d k v) k = some v := by
  induction d with
  | nil => simp [dictInsert, dictLookup]
  | cons p rest ih =>
    by_cases h : p.1 = k
    · simp [dictInsert, dictLookup, h]
    · simp [dictInsert, dictLookup, h, ih]

theorem get_all_entries_append_last (db : List DBEntry) (e : DBEntry) :
    get_all_entries (db ++ [e]) = dictInsert (get_all_entries db) e.uid (entryTuple e) := by
  simp [get_all_entries, List.foldl_append]

theorem get_all_entries_db_add (db : List DBEntry) (e : DBEntry) :
    dictLookup (get_all_entries (db_add_entry db e)) e.uid = some (entryTuple e) := by
  unfold db_add_entry
  rw [get_all_entries_append_last]
  exact dictLookup_insert_self _ _ _

/-- Characterization of `get_tmx_ids` on a cache hit (lines 387-388). -/
theorem get_tmx_ids_hit (st : ControllerCache) (uid : String)
    (http : String → TmxResponse) (t : TmxTuple)
    (h : dictLookup st.uid_to_id_cache uid = some t) :
    get_tmx_ids st uid http = (.ok t, st, 0, []) := by
  unfold get_tmx_ids
  rw [h]

/-- Characterization of `get_tmx_ids` on a cache miss with a 200 response and
a non-empty result set (lines 389-416). -/
theorem get_tmx_ids_miss_success (st : ControllerCache) (uid : String)
    (http : String → TmxResponse) (r : TmxResult) (rest : List TmxResult)
    (h1 : dictLookup st.uid_to_id_cache uid = none)
    (h2 : (http uid).status_code = 200)
    (h3 : (http uid).Results = r :: rest) :
    get_tmx_ids st uid http =
      (.ok (r.MapId, r.OnlineMapId, r.Medals),
       ⟨dictInsert st.uid_to_id_cache uid (r.MapId, r.OnlineMapId, r.Medals),
        db_add_entry st.db (tmxEntry uid r)⟩,
       1, [.cacheInsert uid, .dbWrite uid]) := by
  unfold get_tmx_ids
  rw [h1]
  simp only [h2, h3, ne_eq, not_true_eq_false, if_false, reduceIte, tmxEntry]

/-- C1, counterexample: with thresholds Bronze 60000, Silver 55000, Gold 50000,
Author 45000, raw time 50000 yields Silver, not Gold as the claim states —
under strict less-than, a time exactly equal to the Gold threshold does not
pass the Gold check, so the last check that fired is Silver. -/
theorem claim_C1_counterexample :
    MapUserData.from_record 50000 ⟨some 45000, some 50000, some 55000, some 60000⟩
      = .ok ⟨50000, some Medal.Silver⟩
    ∧ MapUserData.from_record 50000 ⟨some 45000, some 50000, some 55000, some 60000⟩
      ≠ .ok ⟨50000, some Medal.Gold⟩ := by decide

/-- C1, amended: for every raw time and every complete medal-thresholds
mapping, the medal tier computed by `MapUserData.from_record` equals the
spec's rule (tier starts at None; Bronze, Silver, Gold, Author checks in that
order with strict less-than, later matches overriding); for thresholds
Bronze 60000, Silver 55000, Gold 50000, Author 45000, raw time 50000 yields
Silver (not Gold: the comparison is strict) and raw time 60000 yields None. -/
theorem claim_C1_medal_tier :
    (∀ (record author gold silver bronze : Int),
      MapUserData.from_record record ⟨some author, some gold, some silver, some bronze⟩
        = .ok ⟨record, spec_medal_tier record bronze silver gold author⟩)
    ∧ MapUserData.from_record 50000 ⟨some 45000, some 50000, some 55000, some 60000⟩
        = .ok ⟨50000, some Medal.Silver⟩
    ∧ MapUserData.from_record 60000 ⟨some 45000, some 50000, some 55000, some 60000⟩
        = .ok ⟨60000, none⟩ := by
  refine ⟨fun record author gold silver bronze => rfl, by decide, by decide⟩

/-- C4, counterexample: with an empty cache and a catalog response with
status 200 and an empty `Results` set, `get_tmx_ids` fails with an
`IndexError` from `Results[0]` (line 399), not with the designated
`MetadataUnavailable` failure (the RuntimeError of line 397). -/
theorem claim_C4_counterexample :
    (get_tmx_ids ⟨[], []⟩ "uidA" (fun _ => ⟨200, []⟩)).1 = .error .indexError
    ∧ (Except.error Err.indexError : Except Err TmxTuple)
        ≠ .error (MetadataUnavailable "uidA") := by decide

/-- C4, amended: a cached uid is returned immediately with no request and no
state change; a miss issues exactly one catalog request; a non-success
response fails with `MetadataUnavailable(uid)`; an empty result set instead
fails with an `IndexError`, not the designated typed failure. -/
theorem claim_C4_resolve :
    (∀ (st : ControllerCache) (uid : String) (http : String → TmxResponse) (t : TmxTuple),
      dictLookup st.uid_to_id_cache uid = some t →
      get_tmx_ids st uid http = (.ok t, st, 0, []))
    ∧ (∀ (st : ControllerCache) (uid : String) (http : String → TmxResponse),
      dictLookup st.uid_to_id_cache uid = none →
      (get_tmx_ids st uid http).2.2.1 = 1)
    ∧ (∀ (st : ControllerCache) (uid : String) (http : String → TmxResponse),
      dictLookup st.uid_to_id_cache uid = none →
      (http uid).status_code ≠ 200 →
      get_tmx_ids st uid http = (.error (MetadataUnavailable uid), st, 1, []))
    ∧ (∀ (st : ControllerCache) (uid : String) (http : String → TmxResponse),
      dictLookup st.uid_to_id_cache uid = none →
      (http uid).status_code = 200 →
      (http uid).Results = [] →
      get_tmx_ids st uid http = (.error .indexError, st, 1, [])) := by
  refine ⟨fun st uid http t h => get_tmx_ids_hit st uid http t h, ?_, ?_, ?_⟩
  · intro st uid http h
    unfold get_tmx_ids
    rw [h]
    dsimp only
    split
    · rfl
    · split <;> rfl
  · intro st uid http h h2
    unfold get_tmx_ids
    rw [h]
    simp only [h2, ne_eq, not_false_eq_true, if_true, reduceIte, MetadataUnavailable]
  · intro st uid http h h2 h3
    unfold get_tmx_ids
    rw [h]
    simp only [h2, h3, ne_eq, not_true_eq_false, reduceIte]

/-- C4, witness: the four clauses of `claim_C4_resolve` instantiated on
concrete caches and responses. -/
theorem claim_C4_resolve_witness :
    get_tmx_ids ⟨[("u", (7, "o", ⟨some 1, some 2, some 3, some 4⟩))], []⟩ "u"
        (fun _ => ⟨200, []⟩)
      = (.ok (7, "o", ⟨some 1, some 2, some 3, some 4⟩),
         ⟨[("u", (7, "o", ⟨some 1, some 2, some 3, some 4⟩))], []⟩, 0, [])
    ∧ (get_tmx_ids ⟨[], []⟩ "u" (fun _ => ⟨404, []⟩)).2.2.1 = 1
    ∧ get_tmx_ids ⟨[], []⟩ "u" (fun _ => ⟨404, []⟩)
        = (.error (MetadataUnavailable "u"), ⟨[], []⟩, 1, [])
    ∧ get_tmx_ids ⟨[], []⟩ "u" (fun _ => ⟨200, []⟩)
        = (.error .indexError, ⟨[], []⟩, 1, []) :=
  ⟨claim_C4_resolve.1 _ _ _ _ rfl, claim_C4_resolve.2.1 _ _ _ rfl,
   claim_C4_resolve.2.2.1 _ _ _ rfl (by decide), claim_C4_resolve.2.2.2 _ _ _ rfl rfl rfl⟩

/-- C5, counterexample: on a concrete successful miss the write trace is
the in-memory insert followed by the durable write, so at the intermediate
point after the first write (the prefix of length 1) the uid is visible in
the in-memory mapping while no durable write has happened yet — durability
does not precede in-memory visibility. -/
theorem claim_C5_counterexample :
    (get_tmx_ids ⟨[], []⟩ "u"
        (fun _ => ⟨200, [⟨7, "o", ⟨some 1, some 2, some 3, some 4⟩⟩]⟩)).2.2.2
      = [.cacheInsert "u", .dbWrite "u"]
    ∧ CacheEvent.cacheInsert "u" ∈
        ((get_tmx_ids ⟨[], []⟩ "u"
          (fun _ => ⟨200, [⟨7, "o", ⟨some 1, some 2, some 3, some 4⟩⟩]⟩)).2.2.2.take 1)
    ∧ CacheEvent.dbWrite "u" ∉
        ((get_tmx_ids ⟨[], []⟩ "u"
          (fun _ => ⟨200, [⟨7, "o", ⟨some 1, some 2, some 3, some 4⟩⟩]⟩)).2.2.2.take 1) := by
  decide

/-- C5, amended: on a successful miss the resolved tuple is written to the
in-memory mapping first and then written through to durable storage, both
synchronously before `resolve` returns: the write trace is exactly
[cacheInsert uid, dbWrite uid], the returned state's durable store holds the
new row, and the returned state's in-memory mapping holds the tuple. -/
theorem claim_C5_write_order :
    ∀ (st : ControllerCache) (uid : String) (http : String → TmxResponse)
      (r : TmxResult) (rest : List TmxResult),
      dictLookup st.uid_to_id_cache uid = none →
      (http uid).status_code = 200 →
      (http uid).Results = r :: rest →
      (get_tmx_ids st uid http).2.2.2 = [.cacheInsert uid, .dbWrite uid]
      ∧ (get_tmx_ids st uid http).2.1.db = db_add_entry st.db (tmxEntry uid r)
      ∧ dictLookup (get_tmx_ids st uid http).2.1.uid_to_id_cache uid
          = some (r.MapId, r.OnlineMapId, r.Medals) := by
  intro st uid http r rest h1 h2 h3
  rw [get_tmx_ids_miss_success st uid http r rest h1 h2 h3]
  exact ⟨rfl, rfl, dictLookup_insert_self _ _ _⟩

/-- C5, witness: `claim_C5_write_order` instantiated on a concrete miss. -/
theorem claim_C5_write_order_witness :
    (get_tmx_ids ⟨[], []⟩ "u"
        (fun _ => ⟨200, [⟨7, "o", ⟨some 1, some 2, some 3, some 4⟩⟩]⟩)).2.2.2
      = [.cacheInsert "u", .dbWrite "u"]
    ∧ (get_tmx_ids ⟨[], []⟩ "u"
        (fun _ => ⟨200, [⟨7, "o", ⟨some 1, some 2, some 3, some 4⟩⟩]⟩)).2.1.db
      = db_add_entry [] (tmxEntry "u" ⟨7, "o", ⟨some 1, some 2, some 3, some 4⟩⟩)
    ∧ dictLookup (get_tmx_ids ⟨[], []⟩ "u"
        (fun _ => ⟨200, [⟨7, "o", ⟨some 1, some 2, some 3, some 4⟩⟩]⟩)).2.1.uid_to_id_cache "u"
      = some (7, "o", ⟨some 1, some 2, some 3, some 4⟩) :=
  claim_C5_write_order ⟨[], []⟩ "u"
    (fun _ => ⟨200, [⟨7, "o", ⟨some 1, some 2, some 3, some 4⟩⟩]⟩)
    ⟨7, "o", ⟨some 1, some 2, some 3, some 4⟩⟩ [] rfl rfl rfl

/-- C6, counterexample: for a catalog response whose medals lack the Bronze
field, the tuple produced by `get_tmx_ids` keeps the field absent (not 0),
and the medal-tier computation consuming that tuple raises a `KeyError`
instead of seeing a threshold of 0. -/
theorem claim_C6_counterexample :
    (get_tmx_ids ⟨[], []⟩ "u"
        (fun _ => ⟨200, [⟨7, "o", ⟨some 1, some 2, some 3, none⟩⟩]⟩)).1
      = .ok (7, "o", ⟨some 1, some 2, some 3, none⟩)
    ∧ Medals.bronze ⟨some 1, some 2, some 3, none⟩ ≠ some 0
    ∧ MapUserData.from_record 100 ⟨some 1, some 2, some 3, none⟩
        = .error (.keyError "Bronze") := by decide

/-- C6, amended: absent medal fields default to 0 only in the durable-store
row (via `.get(key, 0)`, lines 409-412); the tuple returned by `resolve` and
the value stored in the in-memory mapping keep the response's medals dict
unchanged, absent fields staying absent. -/
theorem claim_C6_medal_defaults :
    ∀ (st : ControllerCache) (uid : String) (http : String → TmxResponse)
      (r : TmxResult) (rest : List TmxResult),
      dictLookup st.uid_to_id_cache uid = none →
      (http uid).status_code = 200 →
      (http uid).Results = r :: rest →
      (get_tmx_ids st uid http).1 = .ok (r.MapId, r.OnlineMapId, r.Medals)
      ∧ dictLookup (get_tmx_ids st uid http).2.1.uid_to_id_cache uid
          = some (r.MapId, r.OnlineMapId, r.Medals)
      ∧ (get_tmx_ids st uid http).2.1.db
          = db_add_entry st.db
              ⟨uid, r.MapId, r.OnlineMapId, r.Medals.author.getD 0, r.Medals.gold.getD 0,
               r.Medals.silver.getD 0, r.Medals.bronze.getD 0⟩ := by
  intro st uid http r rest h1 h2 h3
  rw [get_tmx_ids_miss_success st uid http r rest h1 h2 h3]
  exact ⟨rfl, dictLookup_insert_self _ _ _, rfl⟩

/-- C6, witness: `claim_C6_medal_defaults` on a concrete response whose
medals lack the Bronze field: the row gets `bronze_medal = 0`, the tuple
keeps the field absent. -/
theorem claim_C6_medal_defaults_witness :
    (get_tmx_ids ⟨[], []⟩ "u"
        (fun _ => ⟨200, [⟨7, "o", ⟨some 1, some 2, some 3, none⟩⟩]⟩)).1
      = .ok (7, "o", ⟨some 1, some 2, some 3, none⟩)
    ∧ dictLookup (get_tmx_ids ⟨[], []⟩ "u"
        (fun _ => ⟨200, [⟨7, "o", ⟨some 1, some 2, some 3, none⟩⟩]⟩)).2.1.uid_to_id_cache "u"
      = some (7, "o", ⟨some 1, some 2, some 3, none⟩)
    ∧ (get_tmx_ids ⟨[], []⟩ "u"
        (fun _ => ⟨200, [⟨7, "o", ⟨some 1, some 2, some 3, none⟩⟩]⟩)).2.1.db
      = db_add_entry [] ⟨"u", 7, "o", 1, 2, 3, 0⟩ :=
  claim_C6_medal_defaults ⟨[], []⟩ "u"
    (fun _ => ⟨200, [⟨7, "o", ⟨some 1, some 2, some 3, none⟩⟩]⟩)
    ⟨7, "o", ⟨some 1, some 2, some 3, none⟩⟩ [] rfl rfl rfl

/-- C7, counterexample: a successful resolution whose response medals lack
the Bronze field round-trips to a different tuple: the fresh cache hydrated
from the durable store returns the field as 0 (present), while the original
`resolve` returned it absent — the tuples are not identical. -/
theorem claim_C7_counterexample :
    (get_tmx_ids ⟨[], []⟩ "u"
        (fun _ => ⟨200, [⟨7, "o", ⟨some 1, some 2, some 3, none⟩⟩]⟩)).1
      = .ok (7, "o", ⟨some 1, some 2, some 3, none⟩)
    ∧ (get_tmx_ids
         ⟨get_all_entries (get_tmx_ids ⟨[], []⟩ "u"
            (fun _ => ⟨200, [⟨7, "o", ⟨some 1, some 2, some 3, none⟩⟩]⟩)).2.1.db,
          (get_tmx_ids ⟨[], []⟩ "u"
            (fun _ => ⟨200, [⟨7, "o", ⟨some 1, some 2, some 3, none⟩⟩]⟩)).2.1.db⟩
         "u" (fun _ => ⟨200, [⟨7, "o", ⟨some 1, some 2, some 3, none⟩⟩]⟩)).1
      = .ok (7, "o", ⟨some 1, some 2, some 3, some 0⟩)
    ∧ ((7, "o", (⟨some 1, some 2, some 3, some 0⟩ : Medals)) : TmxTuple)
      ≠ (7, "o", ⟨some 1, some 2, some 3, none⟩) := by decide

/-- C7, amended: after a successful miss, a fresh cache instance hydrated
from the resulting durable store returns, with no network request and no
state change, the original tuple with absent medal fields replaced by 0 and
all four fields present; when the response contained all four medal fields
this is the identical tuple. -/
theorem claim_C7_round_trip :
    ∀ (st : ControllerCache) (uid : String) (http http2 : String → TmxResponse)
      (r : TmxResult) (rest : List TmxResult),
      dictLookup st.uid_to_id_cache uid = none →
      (http uid).status_code = 200 →
      (http uid).Results = r :: rest →
      (get_tmx_ids
          ⟨get_all_entries (get_tmx_ids st uid http).2.1.db, (get_tmx_ids st uid http).2.1.db⟩
          uid http2
        = (.ok (r.MapId, r.OnlineMapId, medalsWithDefaults r.Medals),
           ⟨get_all_entries (get_tmx_ids st uid http).2.1.db, (get_tmx_ids st uid http).2.1.db⟩,
           0, []))
      ∧ (∀ (a g s b : Int), r.Medals = ⟨some a, some g, some s, some b⟩ →
          (get_tmx_ids
            ⟨get_all_entries (get_tmx_ids st uid http).2.1.db, (get_tmx_ids st uid http).2.1.db⟩
            uid http2).1
          = .ok (r.MapId, r.OnlineMapId, r.Medals)) := by
  intro st uid http http2 r rest h1 h2 h3
  rw [get_tmx_ids_miss_success st uid http r rest h1 h2 h3]
  have hlook : dictLookup (get_all_entries (db_add_entry st.db (tmxEntry uid r))) uid
      = some (r.MapId, r.OnlineMapId, medalsWithDefaults r.Medals) := by
    have h := get_all_entries_db_add st.db (tmxEntry uid r)
    simpa [tmxEntry, entryTuple, medalsWithDefaults] using h
  constructor
  · exact get_tmx_ids_hit _ _ _ _ hlook
  · intro a g s b hm
    rw [get_tmx_ids_hit _ _ _ _ hlook, hm]
    simp [medalsWithDefaults]

/-- C7, witness: `claim_C7_round_trip` on a concrete resolution whose
response contains all four medal fields — the round-tripped tuple is
identical to the original. -/
theorem claim_C7_round_trip_witness :
    (get_tmx_ids
        ⟨get_all_entries (get_tmx_ids ⟨[], []⟩ "u"
           (fun _ => ⟨200, [⟨7, "o", ⟨some 1, some 2, some 3, some 4⟩⟩]⟩)).2.1.db,
         (get_tmx_ids ⟨[], []⟩ "u"
           (fun _ => ⟨200, [⟨7, "o", ⟨some 1, some 2, some 3, some 4⟩⟩]⟩)).2.1.db⟩
        "u" (fun _ => ⟨500, []⟩)).1
      = .ok (7, "o", ⟨some 1, some 2, some 3, some 4⟩) :=
  (claim_C7_round_trip ⟨[], []⟩ "u"
    (fun _ => ⟨200, [⟨7, "o", ⟨some 1, some 2, some 3, some 4⟩⟩]⟩) (fun _ => ⟨500, []⟩)
    ⟨7, "o", ⟨some 1, some 2, some 3, some 4⟩⟩ [] rfl rfl rfl).2 1 2 3 4 rfl

theorem range_map_mul_shift (n : Nat) (offset c : Int) :
    (List.range (n + 1)).map (fun (k : Nat) => offset + (k : Int) * c)
      = offset :: (List.range n).map (fun (k : Nat) => (offset + c) + (k : Int) * c) := by
  rw [List.range_succ_eq_map, List.map_cons, List.map_map]
  have h : ((fun (k : Nat) => offset + (k : Int) * c) ∘ Nat.succ)
      = fun (k : Nat) => (offset + c) + (k : Int) * c := by
    funext k
    simp only [Function.comp]
    push_cast
    ring
  rw [h]
  simp

/-- Characterization of `fetch_loop`: starting from a previous full page,
with `FP` a run of further pages of at least `map_chunks` records each and
then a terminating page `lastv` (shorter than `map_chunks`, or malformed),
the loop accumulates exactly the pages' concatenation (the malformed page
contributing nothing) and requests exactly the offsets advancing by
`map_chunks` per page. -/
theorem fetch_loop_spec (r : DedicatedRemote) (c : Int) (lastv : Value)
    (hterm : match lastv with | .list l => ((l.length : Int) < c) | _ => True)
    (FP : List (List Value)) :
    ∀ (fuel : Nat) (offset : Int) (acc new_maps : List Value) (offs : List Int),
      c ≤ (new_maps.length : Int) →
      (∀ k, k < FP.length →
        r.call "GetMapList" [.int c, .int (offset + (k : Int) * c)]
            = .ok (.list (FP.getD k []))
          ∧ c ≤ ((FP.getD k []).length : Int)) →
      r.call "GetMapList" [.int c, .int (offset + (FP.length : Int) * c)] = .ok lastv →
      FP.length + 2 ≤ fuel →
      fetch_loop r c fuel offset acc new_maps offs
        = .ok (acc ++ FP.flatten ++ (match lastv with | .list l => l | _ => []),
               offs ++ (List.range (FP.length + 1)).map (fun (k : Nat) => offset + (k : Int) * c)) := by
  induction FP with
  | nil =>
    intro fuel offset acc new_maps offs hnew hfull hlast hfuel
    obtain ⟨f, rfl⟩ : ∃ f, fuel = f + 1 := ⟨fuel - 1, by omega⟩
    unfold fetch_loop
    rw [if_pos hnew]
    have hlast' : r.call "GetMapList" [.int c, .int offset] = .ok lastv := by
      simpa using hlast
    rw [hlast']
    cases lastv with
    | list l =>
      obtain ⟨f2, rfl⟩ : ∃ f2, f = f2 + 1 := ⟨f - 1, by omega⟩
      unfold fetch_loop
      rw [if_neg (not_le.mpr hterm)]
      simp [List.range_succ]
    | int i => simp [List.range_succ]
    | str s => simp [List.range_succ]
    | bool b => simp [List.range_succ]
    | dict d => simp [List.range_succ]
  | cons P FPt ih =>
    intro fuel offset acc new_maps offs hnew hfull hlast hfuel
    obtain ⟨f, rfl⟩ : ∃ f, fuel = f + 1 := ⟨fuel - 1, by omega⟩
    unfold fetch_loop
    rw [if_pos hnew]
    have h0 := hfull 0 (by simp)
    have h0' : r.call "GetMapList" [.int c, .int offset] = .ok (.list P) := by
      simpa using h0.1
    rw [h0']
    have hfull' : ∀ k, k < FPt.length →
        r.call "GetMapList" [.int c, .int ((offset + c) + (k : Int) * c)]
            = .ok (.list (FPt.getD k []))
          ∧ c ≤ ((FPt.getD k []).length : Int) := by
      intro k hk
      have hx := hfull (k + 1) (by simpa using Nat.succ_lt_succ hk)
      have harg : offset + ((k + 1 : Nat) : Int) * c = (offset + c) + (k : Int) * c := by
        push_cast
        ring
      rw [harg] at hx
      simpa using hx
    have hlast' :
        r.call "GetMapList" [.int c, .int ((offset + c) + (FPt.length : Int) * c)]
          = .ok lastv := by
      have harg : offset + (((P :: FPt).length : Nat) : Int) * c
          = (offset + c) + (FPt.length : Int) * c := by
        simp only [List.length_cons]
        push_cast
        ring
      rw [harg] at hlast
      exact hlast
    have hfuel' : FPt.length + 2 ≤ f := by
      simp only [List.length_cons] at hfuel
      omega
    dsimp only
    rw [ih f (offset + c) (acc ++ P) P (offs ++ [offset]) (by simpa using h0.2)
      hfull' hlast' hfuel']
    rw [range_map_mul_shift (P :: FPt).length offset c]
    simp [List.append_assoc]

/-- C2, counterexample: a remote on which every initial-pull step succeeds
and whose map list (per the pagination of `fetch_all_maps`) is non-empty:
`connect` succeeds and publishes a state whose `maps` is the empty list, not
the map list — `connect` never pulls the map list. -/
theorem claim_C2_counterexample :
    connect
      ⟨true, true, fun method _ =>
        if method = "GetCurrentMapIndex" then .ok (.int 0)
        else if method = "GetModeScriptSettings" then .ok (.dict [])
        else if method = "GetServerName" then .ok (.str "srv")
        else if method = "GetMaxPlayers" then .ok (.dict [("CurrentValue", .int 8)])
        else if method = "GetPlayerList" then
          .ok (.list [.dict [("NickName", .str "hdr")], .dict [("NickName", .str "A")]])
        else if method = "GetMapList" then .ok (.list [.dict [("UId", .str "m1")]])
        else .error (.fault "unexpected")⟩
      = .ok ⟨true, some ⟨"srv", [], ["A"], 0, ⟨0⟩, 8⟩, true⟩
    ∧ fetch_all_maps
      ⟨true, true, fun method _ =>
        if method = "GetCurrentMapIndex" then .ok (.int 0)
        else if method = "GetModeScriptSettings" then .ok (.dict [])
        else if method = "GetServerName" then .ok (.str "srv")
        else if method = "GetMaxPlayers" then .ok (.dict [("CurrentValue", .int 8)])
        else if method = "GetPlayerList" then
          .ok (.list [.dict [("NickName", .str "hdr")], .dict [("NickName", .str "A")]])
        else if method = "GetMapList" then .ok (.list [.dict [("UId", .str "m1")]])
        else .error (.fault "unexpected")⟩
      5 1 = .ok ([.dict [("UId", .str "m1")]], [0])
    ∧ ([Value.dict [("UId", .str "m1")]] : List Value) ≠ [] := by
  refine ⟨rfl, rfl, by simp⟩

/-- C2, amended: a successful `connect` performs one synchronous pull of the
current map index, mode settings, server name, max players and player list —
but not the map list, which is initialized to the empty list (it is first
fetched by the background loop) — publishes the state and starts the
background thread; if `remote.connect()` reports failure nothing is pulled;
if any step of the pull fails, the error propagates to the caller and no
state is published. -/
theorem claim_C2_connect :
    (∀ (r : DedicatedRemote) (idx : Int) (d : List (String × Value))
        (ms : ModeScriptSettings) (name : String) (maxp : Int) (players : List String),
      r.connectResult = true →
      get_current_map_index r = .ok idx →
      get_mode_script_settings r = .ok d →
      ModeScriptSettings.from_dict d = .ok ms →
      get_server_name r = .ok name →
      get_max_players r = .ok maxp →
      get_player_list r = .ok players →
      connect r = .ok ⟨true, some ⟨name, [], players, idx, ms, maxp⟩, true⟩)
    ∧ (∀ (r : DedicatedRemote), r.connectResult = false →
      connect r = .ok ⟨false, none, false⟩)
    ∧ (∀ (r : DedicatedRemote) (e : Err),
      r.connectResult = true →
      get_current_map_index r = .error e →
      connect r = .error e)
    ∧ (∀ (r : DedicatedRemote) (idx : Int) (e : Err),
      r.connectResult = true →
      get_current_map_index r = .ok idx →
      get_mode_script_settings r = .error e →
      connect r = .error e)
    ∧ (∀ (r : DedicatedRemote) (idx : Int) (d : List (String × Value)) (e : Err),
      r.connectResult = true →
      get_current_map_index r = .ok idx →
      get_mode_script_settings r = .ok d →
      ModeScriptSettings.from_dict d = .error e →
      connect r = .error e)
    ∧ (∀ (r : DedicatedRemote) (idx : Int) (d : List (String × Value))
        (ms : ModeScriptSettings) (e : Err),
      r.connectResult = true →
      get_current_map_index r = .ok idx →
      get_mode_script_settings r = .ok d →
      ModeScriptSettings.from_dict d = .ok ms →
      get_server_name r = .error e →
      connect r = .error e)
    ∧ (∀ (r : DedicatedRemote) (idx : Int) (d : List (String × Value))
        (ms : ModeScriptSettings) (name : String) (e : Err),
      r.connectResult = true →
      get_current_map_index r = .ok idx →
      get_mode_script_settings r = .ok d →
      ModeScriptSettings.from_dict d = .ok ms →
      get_server_name r = .ok name →
      get_max_players r = .error e →
      connect r = .error e)
    ∧ (∀ (r : DedicatedRemote) (idx : Int) (d : List (String × Value))
        (ms : ModeScriptSettings) (name : String) (maxp : Int) (e : Err),
      r.connectResult = true →
      get_current_map_index r = .ok idx →
      get_mode_script_settings r = .ok d →
      ModeScriptSettings.from_dict d = .ok ms →
      get_server_name r = .ok name →
      get_max_players r = .ok maxp →
      get_player_list r = .error e →
      connect r = .error e) := by
  refine ⟨?_, ?_, ?_, ?_, ?_, ?_, ?_, ?_⟩
  · intro r idx d ms name maxp players hcr h1 h2 h3 h4 h5 h6
    unfold connect
    rw [hcr]
    simp only [if_true, h1, h2, h3, h4, h5, h6, except_bind_ok]
  · intro r hcr
    unfold connect
    rw [hcr]
    simp only [Bool.false_eq_true, if_false, reduceIte]
  · intro r e hcr h1
    unfold connect
    rw [hcr]
    simp only [if_true, h1, except_bind_error]
  · intro r idx e hcr h1 h2
    unfold connect
    rw [hcr]
    simp only [if_true, h1, h2, except_bind_ok, except_bind_error]
  · intro r idx d e hcr h1 h2 h3
    unfold connect
    rw [hcr]
    simp only [if_true, h1, h2, h3, except_bind_ok, except_bind_error]
  · intro r idx d ms e hcr h1 h2 h3 h4
    unfold connect
    rw [hcr]
    simp only [if_true, h1, h2, h3, h4, except_bind_ok, except_bind_error]
  · intro r idx d ms name e hcr h1 h2 h3 h4 h5
    unfold connect
    rw [hcr]
    simp only [if_true, h1, h2, h3, h4, h5, except_bind_ok, except_bind_error]
  · intro r idx d ms name maxp e hcr h1 h2 h3 h4 h5 h6
    unfold connect
    rw [hcr]
    simp only [if_true, h1, h2, h3, h4, h5, h6, except_bind_ok, except_bind_error]

/-- C2, witness: `claim_C2_connect` instantiated on a concrete remote on
which every pulled step succeeds (the published maps list is empty), on a
remote whose `connect()` reports failure, and on a remote whose current-map
index pull fails. -/
theorem claim_C2_connect_witness :
    connect
      ⟨true, true, fun method _ =>
        if method = "GetCurrentMapIndex" then .ok (.int 3)
        else if method = "GetModeScriptSettings" then .ok (.dict [("S_TimeLimit", .int 300)])
        else if method = "GetServerName" then .ok (.str "srv")
        else if method = "GetMaxPlayers" then .ok (.dict [("CurrentValue", .int 8)])
        else if method = "GetPlayerList" then
          .ok (.list [.dict [("NickName", .str "hdr")], .dict [("NickName", .str "A")]])
        else .error (.fault "unexpected")⟩
      = .ok ⟨true, some ⟨"srv", [], ["A"], 3, ⟨300⟩, 8⟩, true⟩
    ∧ connect ⟨true, false, fun _ _ => .error (.fault "unexpected")⟩
      = .ok ⟨false, none, false⟩
    ∧ connect ⟨true, true, fun _ _ => .error (.fault "down")⟩
      = .error (.fault "down") :=
  ⟨claim_C2_connect.1 _ 3 [("S_TimeLimit", .int 300)] ⟨300⟩ "srv" 8 ["A"]
      rfl rfl rfl rfl rfl rfl rfl,
   claim_C2_connect.2.1 _ rfl,
   claim_C2_connect.2.2.1 _ (.fault "down") rfl rfl⟩

/-- C3: the claim says an exception in any step of a resync pass is caught
and logged inside the loop; in the source the try/except is commented out
(lines 305-308), so the exception propagates out of the pass — here a Fault
raised by the very first remote call of the pass is returned as the error of
the whole pass, which in the threaded source terminates the synchronizer. -/
theorem claim_C3_pass_error_propagates :
    periodic_update_pass ⟨true, true, fun _ _ => .error (.fault "boom")⟩
      (some ⟨"srv", [], [], 0, ⟨0⟩, 8⟩) ⟨[], []⟩ (fun _ => ⟨500, []⟩) 1
      = .error (.fault "boom") := rfl

/-- C9, counterexample: when the remote accept call returns False (it does
not report success), `set_mode_settings` returns the failure value False
instead of raising `SettingsRejected`. -/
theorem claim_C9_counterexample :
    set_mode_script_settings
      ⟨true, true, fun method _ =>
        if method = "GetModeScriptSettings" then .ok (.dict [("S_TimeLimit", .int 300)])
        else if method = "SetModeScriptSettings" then .ok (.bool false)
        else .error (.fault "unexpected")⟩
      [("S_TimeLimit", .int 600)]
      = .ok false := rfl

/-- C9, amended: `set_mode_settings(patch)` reads the current remote mode
settings, merges the patch over them (patch keys winning), writes the merged
mapping back in a single remote call, and raises (as a RuntimeError) when
that call faults or returns a non-boolean; a boolean result — True or
False — is returned to the caller as-is, so a remote that reports
non-success with False does not make the call raise. -/
theorem claim_C9_set_mode_settings :
    (∀ (r : DedicatedRemote) (patch cur : List (String × Value)) (result : Value),
      r.connalive = true →
      r.call "GetModeScriptSettings" [] = .ok (.dict cur) →
      r.call "SetModeScriptSettings" [.dict (dictMerge cur patch)] = .ok result →
      set_mode_script_settings r patch
        = match result with
          | .bool b => .ok b
          | _ => .error (.runtimeError "Failed to set mode script settings."))
    ∧ (∀ (r : DedicatedRemote) (patch cur : List (String × Value)) (m : String),
      r.connalive = true →
      r.call "GetModeScriptSettings" [] = .ok (.dict cur) →
      r.call "SetModeScriptSettings" [.dict (dictMerge cur patch)] = .error (.fault m) →
      set_mode_script_settings r patch
        = .error (.runtimeError ("Failed to set mode script setting: " ++ m))) := by
  constructor
  · intro r patch cur result hc hget hset
    unfold set_mode_script_settings get_mode_script_settings validate_connection
    rw [hc]
    simp only [if_true, hget, except_bind_ok, check_cast_dict, hset]
    cases result <;> simp [catchFault, pure, Except.pure]
  · intro r patch cur m hc hget hset
    unfold set_mode_script_settings get_mode_script_settings validate_connection
    rw [hc]
    simp only [if_true, hget, except_bind_ok, check_cast_dict, hset, except_bind_error]
    simp [catchFault]

/-- C9, witness: `claim_C9_set_mode_settings` instantiated on remotes whose
accept call returns True, returns a non-boolean, and faults. -/
theorem claim_C9_set_mode_settings_witness :
    set_mode_script_settings
      ⟨true, true, fun method _ =>
        if method = "GetModeScriptSettings" then .ok (.dict [("S_TimeLimit", .int 300)])
        else .ok (.bool true)⟩
      [("S_TimeLimit", .int 600)]
      = .ok true
    ∧ set_mode_script_settings
      ⟨true, true, fun method _ =>
        if method = "GetModeScriptSettings" then .ok (.dict [])
        else .ok (.int 0)⟩
      []
      = .error (.runtimeError "Failed to set mode script settings.")
    ∧ set_mode_script_settings
      ⟨true, true, fun method _ =>
        if method = "GetModeScriptSettings" then .ok (.dict [])
        else .error (.fault "boom")⟩
      []
      = .error (.runtimeError ("Failed to set mode script setting: " ++ "boom")) :=
  ⟨claim_C9_set_mode_settings.1 _ [("S_TimeLimit", .int 600)]
      [("S_TimeLimit", .int 300)] (.bool true) rfl rfl rfl,
   claim_C9_set_mode_settings.1 _ [] [] (.int 0) rfl rfl rfl,
   claim_C9_set_mode_settings.2 _ [] [] "boom" rfl rfl rfl⟩

/-- C8: map-list pagination requests pages of `map_chunks` records starting
at offset 0, advancing the offset by `map_chunks` per request and
concatenating the results, and stops exactly when a page has fewer than
`map_chunks` records or a malformed (non-sequence) response arrives, the
latter treated as end of list rather than an error; in particular, against a
source returning pages of sizes 5, 5, 5, 3 with page size 5 it yields 18
records using exactly 4 page requests at offsets 0, 5, 10 and 15. -/
theorem claim_C8_pagination :
    (∀ (r : DedicatedRemote) (c : Int) (FP : List (List Value)) (lastv : Value)
        (fuel : Nat),
      (∀ k, k < FP.length →
        r.call "GetMapList" [.int c, .int ((k : Int) * c)] = .ok (.list (FP.getD k []))
          ∧ c ≤ ((FP.getD k []).length : Int)) →
      r.call "GetMapList" [.int c, .int ((FP.length : Int) * c)] = .ok lastv →
      (match lastv with | .list l => ((l.length : Int) < c) | _ => True) →
      FP.length + 2 ≤ fuel →
      fetch_all_maps r c fuel
        = .ok (FP.flatten ++ (match lastv with | .list l => l | _ => []),
               (List.range (FP.length + 1)).map (fun (k : Nat) => (k : Int) * c)))
    ∧ fetch_all_maps
        ⟨true, true, fun method args =>
          if method = "GetMapList" then
            match args with
            | [_, .int off] =>
              if off = 0 then
                .ok (.list [.int 0, .int 1, .int 2, .int 3, .int 4])
              else if off = 5 then
                .ok (.list [.int 5, .int 6, .int 7, .int 8, .int 9])
              else if off = 10 then
                .ok (.list [.int 10, .int 11, .int 12, .int 13, .int 14])
              else if off = 15 then
                .ok (.list [.int 15, .int 16, .int 17])
              else .ok (.list [])
            | _ => .error (.fault "bad args")
          else .error (.fault "unexpected")⟩
        5 6
      = .ok ([.int 0, .int 1, .int 2, .int 3, .int 4, .int 5, .int 6, .int 7,
              .int 8, .int 9, .int 10, .int 11, .int 12, .int 13, .int 14,
              .int 15, .int 16, .int 17],
             [0, 5, 10, 15])
    ∧ ([Value.int 0, .int 1, .int 2, .int 3, .int 4, .int 5, .int 6, .int 7,
        .int 8, .int 9, .int 10, .int 11, .int 12, .int 13, .int 14,
        .int 15, .int 16, .int 17].length = 18)
    ∧ (([0, 5, 10, 15] : List Int).length = 4) := by
  refine ⟨?_, rfl, rfl, rfl⟩
  intro r c FP lastv fuel hfull hlast hterm hfuel
  unfold fetch_all_maps
  cases FP with
  | nil =>
    have hlast' : r.call "GetMapList" [.int c, .int 0] = .ok lastv := by
      simpa using hlast
    rw [hlast']
    cases lastv with
    | list l =>
      dsimp only
      obtain ⟨f, rfl⟩ : ∃ f, fuel = f + 1 := ⟨fuel - 1, by omega⟩
      unfold fetch_loop
      rw [if_neg (not_le.mpr hterm)]
      simp [List.range_succ]
    | int i => simp [List.range_succ]
    | str s => simp [List.range_succ]
    | bool b => simp [List.range_succ]
    | dict d => simp [List.range_succ]
  | cons P FPt =>
    have h0 := hfull 0 (by simp)
    have h0' : r.call "GetMapList" [.int c, .int 0] = .ok (.list P) := by
      simpa using h0.1
    rw [h0']
    dsimp only
    have hfull' : ∀ k, k < FPt.length →
        r.call "GetMapList" [.int c, .int (c + (k : Int) * c)]
            = .ok (.list (FPt.getD k []))
          ∧ c ≤ ((FPt.getD k []).length : Int) := by
      intro k hk
      have hx := hfull (k + 1) (by simpa using Nat.succ_lt_succ hk)
      have harg : ((k + 1 : Nat) : Int) * c = c + (k : Int) * c := by
        push_cast
        ring
      rw [harg] at hx
      simpa using hx
    have hlast' :
        r.call "GetMapList" [.int c, .int (c + (FPt.length : Int) * c)] = .ok lastv := by
      have harg : (((P :: FPt).length : Nat) : Int) * c = c + (FPt.length : Int) * c := by
        simp only [List.length_cons]
        push_cast
        ring
      rw [harg] at hlast
      exact hlast
    have hfuel' : FPt.length + 2 ≤ fuel := by
      simp only [List.length_cons] at hfuel
      omega
    have hloop := fetch_loop_spec r c lastv hterm FPt fuel c P P [0]
      (by simpa using h0.2) (by simpa using hfull') (by simpa using hlast') hfuel'
    rw [hloop]
    have e1 : (fun (k : Nat) => (k : Int) * c) = (fun (k : Nat) => (0 : Int) + (k : Int) * c) := by
      funext k
      ring
    rw [e1, range_map_mul_shift (P :: FPt).length 0 c]
    have e2 : (fun (k : Nat) => ((0 : Int) + c) + (k : Int) * c)
        = fun (k : Nat) => c + (k : Int) * c := by
      funext k
      ring
    rw [e2]
    simp only [List.append_assoc, List.singleton_append, List.flatten_cons]
    cases lastv <;> rfl

/-- C8, witness: `claim_C8_pagination` applied to the concrete four-page
source with pages of sizes 5, 5, 5, 3 and page size 5. -/
theorem claim_C8_pagination_witness :
    fetch_all_maps
      ⟨true, true, fun method args =>
        if method = "GetMapList" then
          match args with
          | [_, .int off] =>
            if off = 0 then
              .ok (.list [.int 0, .int 1, .int 2, .int 3, .int 4])
            else if off = 5 then
              .ok (.list [.int 5, .int 6, .int 7, .int 8, .int 9])
            else if off = 10 then
              .ok (.list [.int 10, .int 11, .int 12, .int 13, .int 14])
            else if off = 15 then
              .ok (.list [.int 15, .int 16, .int 17])
            else .ok (.list [])
          | _ => .error (.fault "bad args")
        else .error (.fault "unexpected")⟩
      5 6
    = .ok (([[.int 0, .int 1, .int 2, .int 3, .int 4],
             [.int 5, .int 6, .int 7, .int 8, .int 9],
             [.int 10, .int 11, .int 12, .int 13, .int 14]] : List (List Value)).flatten
            ++ [.int 15, .int 16, .int 17],
           (List.range (3 + 1)).map (fun (k : Nat) => (k : Int) * 5)) :=
  claim_C8_pagination.1 _ 5
    [[.int 0, .int 1, .int 2, .int 3, .int 4],
     [.int 5, .int 6, .int 7, .int 8, .int 9],
     [.int 10, .int 11, .int 12, .int 13, .int 14]]
    (.list [.int 15, .int 16, .int 17]) 6
    (by
      intro k hk
      simp only [List.length_cons, List.length_nil] at hk
      interval_cases k <;> exact ⟨rfl, by decide⟩)
    rfl (by decide) (by decide)

/-- C10: a remote player-list response that is an empty sequence makes
`get_player_list` raise (the header-drop is only applied after a non-empty
check that treats the empty list as a failure); the error propagates through
`connect` when every earlier step of the initial pull succeeds, and through
`update_state` in every resync pass whose earlier steps succeed. -/
theorem claim_C10_empty_player_list :
    (∀ (r : DedicatedRemote),
      r.connalive = true →
      r.call "GetPlayerList" [.int 100, .int 0] = .ok (.list []) →
      get_player_list r = .error (.runtimeError "Failed to get player list."))
    ∧ (∀ (r : DedicatedRemote) (idx : Int) (d : List (String × Value))
        (ms : ModeScriptSettings) (name : String) (maxp : Int),
      r.connectResult = true →
      get_current_map_index r = .ok idx →
      get_mode_script_settings r = .ok d →
      ModeScriptSettings.from_dict d = .ok ms →
      get_server_name r = .ok name →
      get_max_players r = .ok maxp →
      r.connalive = true →
      r.call "GetPlayerList" [.int 100, .int 0] = .ok (.list []) →
      connect r = .error (.runtimeError "Failed to get player list."))
    ∧ (∀ (r : DedicatedRemote) (s s1 s2 s3 : ServerState) (st st1 : ControllerCache)
        (http : String → TmxResponse) (fuel : Nat),
      update_map_list r (some s) st http fuel = .ok (some s1, st1) →
      update_current_map_index r (some s1) = .ok (some s2) →
      update_mode_script_settings r (some s2) = .ok (some s3) →
      r.connalive = true →
      r.call "GetPlayerList" [.int 100, .int 0] = .ok (.list []) →
      update_state r (some s) st http fuel
        = .error (.runtimeError "Failed to get player list.")) := by
  have hpl : ∀ (r : DedicatedRemote),
      r.connalive = true →
      r.call "GetPlayerList" [.int 100, .int 0] = .ok (.list []) →
      get_player_list r = .error (.runtimeError "Failed to get player list.") := by
    intro r hc hcall
    unfold get_player_list validate_connection
    rw [hc]
    simp only [if_true, hcall, except_bind_ok]
    simp
  refine ⟨hpl, ?_, ?_⟩
  · intro r idx d ms name maxp hcr h1 h2 h3 h4 h5 hc hcall
    unfold connect
    rw [hcr]
    simp only [if_true, h1, h2, h3, h4, h5, hpl r hc hcall, except_bind_ok,
      except_bind_error]
  · intro r s s1 s2 s3 st st1 http fuel h1 h2 h3 hc hcall
    unfold update_state update_player_list
    simp only [h1, h2, h3, hpl r hc hcall, except_bind_ok, except_bind_error]

/-- C10, witness: `claim_C10_empty_player_list` instantiated on a concrete
remote reporting an empty player list while every other call succeeds. -/
theorem claim_C10_empty_player_list_witness :
    get_player_list
      ⟨true, true, fun method _ =>
        if method = "GetPlayerList" then .ok (.list [])
        else if method = "GetCurrentMapIndex" then .ok (.int 0)
        else if method = "GetModeScriptSettings" then .ok (.dict [])
        else if method = "GetServerName" then .ok (.str "srv")
        else if method = "GetMaxPlayers" then .ok (.dict [("CurrentValue", .int 8)])
        else if method = "GetMapList" then .ok (.bool false)
        else .error (.fault "unexpected")⟩
      = .error (.runtimeError "Failed to get player list.")
    ∧ connect
      ⟨true, true, fun method _ =>
        if method = "GetPlayerList" then .ok (.list [])
        else if method = "GetCurrentMapIndex" then .ok (.int 0)
        else if method = "GetModeScriptSettings" then .ok (.dict [])
        else if method = "GetServerName" then .ok (.str "srv")
        else if method = "GetMaxPlayers" then .ok (.dict [("CurrentValue", .int 8)])
        else if method = "GetMapList" then .ok (.bool false)
        else .error (.fault "unexpected")⟩
      = .error (.runtimeError "Failed to get player list.")
    ∧ update_state
      ⟨true, true, fun method _ =>
        if method = "GetPlayerList" then .ok (.list [])
        else if method = "GetCurrentMapIndex" then .ok (.int 0)
        else if method = "GetModeScriptSettings" then .ok (.dict [])
        else if method = "GetServerName" then .ok (.str "srv")
        else if method = "GetMaxPlayers" then .ok (.dict [("CurrentValue", .int 8)])
        else if method = "GetMapList" then .ok (.bool false)
        else .error (.fault "unexpected")⟩
      (some ⟨"srv", [], [], 0, ⟨0⟩, 8⟩) ⟨[], []⟩ (fun _ => ⟨500, []⟩) 1
      = .error (.runtimeError "Failed to get player list.") :=
  ⟨claim_C10_empty_player_list.1 _ rfl rfl,
   claim_C10_empty_player_list.2.1 _ 0 [] ⟨0⟩ "srv" 8 rfl rfl rfl rfl rfl rfl rfl rfl,
   claim_C10_empty_player_list.2.2 _ ⟨"srv", [], [], 0, ⟨0⟩, 8⟩
     ⟨"srv", [], [], 0, ⟨0⟩, 8⟩ ⟨"srv", [], [], 0, ⟨0⟩, 8⟩ ⟨"srv", [], [], 0, ⟨0⟩, 8⟩
     ⟨[], []⟩ ⟨[], []⟩ (fun _ => ⟨500, []⟩) 1 rfl rfl rfl rfl rfl⟩

end TmMapselect
